import Mathlib

/-!
Verification of the product-catalog service implemented in `src/main.py`.

The service is a thin HTTP layer over a document store.  We embed the four
data operations (`list_products`, `get_categories`, `create_product`,
`seed_products`) as pure functions over an explicit store state.  The db
client (`database.py` with `create_document` / `get_documents`, and
`schemas.py`) is not among the sources; following the specification, the
backing store is a list of product records with increasing ids,
`create_document` inserts exactly one record with a fresh id, and
`get_documents` returns the records matching the Mongo-style filter in
storage order, capped at `limit`.  Prices and ratings are carried as exact
rationals: no floating-point arithmetic is ever performed on them.
-/

/-- A JSON value appearing in a request payload field. -/
inductive JVal where
  | jnull
  | jstr (s : String)
  | jnum (q : ℚ)
  | jbool (b : Bool)
deriving DecidableEq, Repr

/-- A product record as stored (without the storage-assigned id). -/
structure Product where
  title : String
  description : Option String
  price : ℚ
  category : String
  in_stock : Bool
  image : Option String
  rating : Option ℚ
deriving DecidableEq, Repr

/-- A stored document: a product together with its storage-assigned id
(Mongo ObjectId, modelled as a natural number assigned in increasing
order, matching the spec: unique, immutable, never reused). -/
structure StoredProduct where
  _id : Nat
  doc : Product
deriving DecidableEq, Repr

/-- The world the handlers run against: whether the db handle is
configured (`db is None` in the source when false), the next fresh id,
and the `product` collection in insertion order. -/
structure World where
  dbUp : Bool
  nextId : Nat
  store : List StoredProduct
deriving DecidableEq, Repr

/-- An HTTP error raised by a handler: a FastAPI request-validation
error, or an `HTTPException` with a detail message. -/
inductive HErr where
  | validation (detail : String)
  | server (detail : String)
deriving DecidableEq, Repr

/-- The HTTP status code each error surfaces with. -/
def statusCode : HErr → Nat
  | HErr.validation _ => 422
  | HErr.server _ => 500

/-- The external JSON shape of a product: `_serialize` in the source
renames `_id` to `id` and stringifies it. -/
structure ProductOut where
  id : String
  title : String
  description : Option String
  price : ℚ
  category : String
  in_stock : Bool
  image : Option String
  rating : Option ℚ
deriving DecidableEq, Repr

/-- `_serialize` on a present document: copy the fields, with the id as a
string. -/
def serialize (sd : StoredProduct) : ProductOut :=
  { id := toString sd._id
    title := sd.doc.title
    description := sd.doc.description
    price := sd.doc.price
    category := sd.doc.category
    in_stock := sd.doc.in_stock
    image := sd.doc.image
    rating := sd.doc.rating }

/-- Whether the character list starts with the given pattern. -/
def startsWithChars : List Char → List Char → Bool
  | _, [] => true
  | [], _ :: _ => false
  | a :: as, b :: bs => a == b && startsWithChars as bs

/-- Whether the pattern occurs as a contiguous subsequence of the
character list. -/
def containsChars : List Char → List Char → Bool
  | [], p => p.isEmpty
  | a :: as, p => startsWithChars (a :: as) p || containsChars as p

/-- Case-insensitive substring test: both sides are lowercased
characterwise (as `String.toLower` does) and compared. -/
def ciContains (hay pat : String) : Bool :=
  containsChars (hay.data.map Char.toLower) (pat.data.map Char.toLower)

/-- Modelled from the spec: the Mongo condition built by `list_products`
(two `$regex`/`$options i` clauses joined by `$or`, evaluated by the
missing `database.get_documents`) is case-insensitive substring matching
of the search text against `title` OR `description`; a missing (null)
`description` matches nothing. -/
def matchesSearch (s : String) (p : Product) : Bool :=
  ciContains p.title s ||
    (match p.description with
     | some d => ciContains d s
     | none => false)

/-- The filter document built in `list_products`: a clause is added only
when the parameter is present and truthy (the empty string is falsy in
the Python source, so it adds no clause). -/
def docMatches (search category : Option String) (p : Product) : Bool :=
  (match search with
   | some s => if s = "" then true else matchesSearch s p
   | none => true)
  &&
  (match category with
   | some c => if c = "" then true else p.category == c
   | none => true)

/-- FastAPI validation of the `limit` query parameter,
`Query(48, ge=1, le=200)`: absent means 48; an out-of-range value is
rejected with a request-validation error before the handler body runs. -/
def parseLimit : Option Int → Except HErr Int
  | none => Except.ok 48
  | some v =>
    if 1 ≤ v ∧ v ≤ 200 then Except.ok v
    else Except.error (HErr.validation "limit out of range")

/-- Modelled from the spec: `database.get_documents` returns the records
matching the filter, in storage order, capped at `limit` items. -/
def get_documents (store : List StoredProduct) (search category : Option String)
    (lim : Nat) : List StoredProduct :=
  (store.filter (fun sd => docMatches search category sd.doc)).take lim

/-- The `GET /api/products` handler: validate `limit`, fail with a 500
`HTTPException` when the db handle is absent, otherwise return the
serialized matching documents (the `items` field of the response). -/
def list_products (w : World) (search category : Option String)
    (limit : Option Int) : Except HErr (List ProductOut) :=
  match parseLimit limit with
  | Except.error e => Except.error e
  | Except.ok lim =>
    if w.dbUp then
      Except.ok ((get_documents w.store search category lim.toNat).map serialize)
    else Except.error (HErr.server "Database not configured")

/-- The pure computation of `GET /api/categories`: Mongo `distinct` on the
`category` field (modelled from the spec as the deduplicated category
values of the stored products), then the Python list comprehension drops
falsy (empty) values, then `sorted` sorts lexicographically. -/
def categoriesOf (w : World) : List String :=
  List.insertionSort (· ≤ ·)
    (((w.store.map (fun sd => sd.doc.category)).dedup).filter (fun c => c ≠ ""))

/-- The `GET /api/categories` handler. -/
def get_categories (w : World) : Except HErr (List String) :=
  if w.dbUp then Except.ok (categoriesOf w)
  else Except.error (HErr.server "Database not configured")

/-- A raw JSON request body for `POST /api/products`: each field of
`CreateProduct` is either absent or some JSON value. -/
structure RawPayload where
  title : Option JVal
  description : Option JVal
  price : Option JVal
  category : Option JVal
  in_stock : Option JVal
  image : Option JVal
  rating : Option JVal
deriving DecidableEq, Repr

/-- Validation of an optional string field (`Optional[str] = None`). -/
def parseOptStr : Option JVal → Option (Option String)
  | none => some none
  | some JVal.jnull => some none
  | some (JVal.jstr s) => some (some s)
  | some _ => none

/-- The value of a digit string. -/
def natOfDigits (l : List Char) : Nat :=
  l.foldl (fun n c => n * 10 + (c.toNat - 48)) 0

/-- Split a character list at the first exponent marker (e or E): the
part before it, and, when a marker occurs, the part after it. -/
def splitOnExp : List Char → List Char × Option (List Char)
  | [] => ([], none)
  | c :: r =>
    if c == 'e' || c == 'E' then ([], some r)
    else
      let p := splitOnExp r
      (c :: p.1, p.2)

/-- Strip one optional leading sign, reporting whether it was a minus. -/
def dropSign : List Char → Bool × List Char
  | [] => (false, [])
  | c :: r =>
    if c == '-' then (true, r)
    else if c == '+' then (false, r)
    else (false, c :: r)

/-- An unsigned decimal mantissa: digits with an optional point
(799, 4.5, .5, 5.). -/
def parseMantissa (l : List Char) : Option ℚ :=
  let ip := l.takeWhile Char.isDigit
  match l.dropWhile Char.isDigit with
  | [] => if ip.isEmpty then none else some (natOfDigits ip : ℚ)
  | '.' :: fr =>
    if fr.all Char.isDigit && !(ip.isEmpty && fr.isEmpty) then
      some ((natOfDigits ip : ℚ) + (natOfDigits fr : ℚ) / (10 : ℚ) ^ fr.length)
    else none
  | _ => none

/-- The finite numeric strings that pydantic lax mode coerces to a
number: optional surrounding whitespace, an optional sign, a decimal
mantissa and an optional signed integer exponent.  The textual
non-finite forms (inf, infinity, nan) carry no rational value and are
outside this model; the validation claim keeps its hypothesis away from
them (see `plainlyNonNumeric`). -/
def parseNumericString (s : String) : Option ℚ :=
  let t := ((s.data.dropWhile Char.isWhitespace).reverse.dropWhile
    Char.isWhitespace).reverse
  let se := splitOnExp t
  let sg := dropSign se.1
  match parseMantissa sg.2 with
  | none => none
  | some m =>
    let m2 := if sg.1 then -m else m
    match se.2 with
    | none => some m2
    | some ex =>
      let eg := dropSign ex
      if !eg.2.isEmpty && eg.2.all Char.isDigit then
        some (if eg.1 then m2 / (10 : ℚ) ^ natOfDigits eg.2
              else m2 * (10 : ℚ) ^ natOfDigits eg.2)
      else none

/-- pydantic lax validation of a required `float` value (the
`model_dump` call in the source pins pydantic v2): a JSON number, or a
numeric string coerced to its value; null is rejected, and v2 no longer
accepts booleans for numeric fields. -/
def parseFloat : JVal → Option ℚ
  | JVal.jnum q => some q
  | JVal.jstr s => parseNumericString s
  | _ => none

/-- Validation of an optional numeric field (`Optional[float] = None`),
with the same lax string coercion as `parseFloat`. -/
def parseOptNum : Option JVal → Option (Option ℚ)
  | none => some none
  | some JVal.jnull => some none
  | some v => (parseFloat v).map some

/-- pydantic lax validation of a `bool` value: a JSON bool, one of the
documented boolean strings (case-insensitive), or the numbers 0 and 1. -/
def parseBool : JVal → Option Bool
  | JVal.jbool b => some b
  | JVal.jstr s =>
    let t := s.data.map Char.toLower
    if t == "true".data || t == "t".data || t == "yes".data || t == "y".data
        || t == "on".data || t == "1".data then some true
    else if t == "false".data || t == "f".data || t == "no".data
        || t == "n".data || t == "off".data || t == "0".data then some false
    else none
  | JVal.jnum q => if q = 1 then some true else if q = 0 then some false else none
  | JVal.jnull => none

/-- Validation of `in_stock: bool = True`: absent means true, a present
value goes through the lax bool coercion. -/
def parseBoolDefaultTrue : Option JVal → Option Bool
  | none => some true
  | some v => parseBool v

/-- FastAPI/pydantic validation of the request body against
`CreateProduct` (`title : str`, `description : Optional[str] = None`,
`price : float`, `category : str`, `in_stock : bool = True`,
`image : Optional[str] = None`, `rating : Optional[float] = None`),
in the lax mode FastAPI uses for request bodies: `price` and `rating`
accept numbers and numeric strings, `in_stock` accepts bools, boolean
strings and 0/1, while the string fields accept only strings (pydantic
v2, pinned by the `model_dump` call in the source, does not coerce
numbers to strings).  A missing `title`, `price` or `category`, or any
field value its lax validator rejects, yields a validation error before
the handler body runs.  The subsequent re-validation through
`schemas.Product` (a file not among the sources) is, modelled from the
spec, a consistency re-check of the same fields and succeeds on every
payload accepted here. -/
def parsePayload (raw : RawPayload) : Except HErr Product :=
  match raw.title, raw.price, raw.category with
  | some (JVal.jstr t), some pv, some (JVal.jstr c) =>
    match parseFloat pv, parseOptStr raw.description,
          parseBoolDefaultTrue raw.in_stock, parseOptStr raw.image,
          parseOptNum raw.rating with
    | some q, some d, some b, some im, some r =>
      Except.ok
        { title := t, description := d, price := q, category := c
          in_stock := b, image := im, rating := r }
    | _, _, _, _, _ => Except.error (HErr.validation "invalid payload")
  | _, _, _ => Except.error (HErr.validation "invalid payload")

/-- Modelled from the spec: `database.create_document` inserts exactly
one new record and assigns a fresh unique id; ids are assigned in
increasing order.  Returns the new id and the updated world. -/
def create_document (w : World) (p : Product) : Nat × World :=
  (w.nextId,
   { w with store := w.store ++ [{ _id := w.nextId, doc := p }]
            nextId := w.nextId + 1 })

/-- `find_one` by id. -/
def findById (store : List StoredProduct) (i : Nat) : Option StoredProduct :=
  store.find? (fun sd => sd._id == i)

/-- `find_one(sort=(_id, -1))`: the record with the greatest id, i.e. the
most recently inserted one (ids are assigned in increasing order). -/
def lastInserted : List StoredProduct → Option StoredProduct
  | [] => none
  | d :: ds =>
    match lastInserted ds with
    | none => some d
    | some m => some (if m._id ≤ d._id then d else m)

/-- The response body of `POST /api/products`: `_serialize` maps a `None`
lookup result to `None`, so the `item` field is optional. -/
structure CreateReply where
  item : Option ProductOut
deriving DecidableEq, Repr

/-- The tail of `create_product` (the try/except on the re-fetch and the
final return): if the re-fetch by id raises, `created` is taken from the
fallback most-recent lookup; either way the handler returns the reply
`item = _serialize(created)`, where a missing `created` serializes to
null.  No exception is raised on this path. -/
def create_response (refetch : Except Unit (Option StoredProduct))
    (fallback : Option StoredProduct) : CreateReply :=
  match refetch with
  | Except.ok r => { item := r.map serialize }
  | Except.error _ => { item := fallback.map serialize }

/-- The `POST /api/products` handler.  `byIdRaises` models whether the
try-block re-fetch (the bson import plus `find_one` by ObjectId) raises
in the running environment.  The dead self-referential `find_one` on
line 127 of the source binds an unused variable and is not replicated
(spec section 9 directs implementations to drop it). -/
def create_product (w : World) (byIdRaises : Bool) (raw : RawPayload) :
    Except HErr CreateReply × World :=
  match parsePayload raw with
  | Except.error e => (Except.error e, w)
  | Except.ok p =>
    if w.dbUp then
      let r := create_document w p
      let refetch : Except Unit (Option StoredProduct) :=
        if byIdRaises then Except.error ()
        else Except.ok (findById r.2.store r.1)
      (Except.ok (create_response refetch (lastInserted r.2.store)), r.2)
    else (Except.error (HErr.server "Database not configured"), w)

/-- The response body of `POST /api/seed`: either the already-seeded
message with the existing count, or the inserted count and new total. -/
inductive SeedReply where
  | already (count : Nat)
  | seeded (inserted : Nat) (count : Nat)
deriving DecidableEq, Repr

/-- The fixed built-in sample products of `seed_products`. -/
def sampleProducts : List Product :=
  [ { title := "Apple iPhone 15"
      description := some "Dynamic Island, A16 Bionic, 6.1-inch Super Retina XDR"
      price := 799
      category := "Mobiles"
      in_stock := true
      image := some "https://images.unsplash.com/photo-1695048133142-93b2b88a93df?w=800"
      rating := some 4.6 },
    { title := "Samsung Galaxy S23"
      description := some "Snapdragon 8 Gen 2, Pro-grade camera"
      price := 699
      category := "Mobiles"
      in_stock := true
      image := some "https://images.unsplash.com/photo-1675866231057-1c5efb395c3b?w=800"
      rating := some 4.5 },
    { title := "Sony WH-1000XM5"
      description := some "Industry leading noise canceling headphones"
      price := 349
      category := "Audio"
      in_stock := true
      image := some "https://images.unsplash.com/photo-1546435770-a3e426bf472b?w=800"
      rating := some 4.7 },
    { title := "HP Victus Gaming Laptop"
      description := some "Ryzen 7, RTX 4060, 16GB RAM, 512GB SSD"
      price := 1199
      category := "Laptops"
      in_stock := true
      image := some "https://images.unsplash.com/photo-1517336714731-489689fd1ca8?w=800"
      rating := some 4.3 },
    { title := "Nike Air Max"
      description := some "Breathable mesh, all-day comfort"
      price := 129
      category := "Fashion"
      in_stock := true
      image := some "https://images.unsplash.com/photo-1542291026-7eec264c27ff?w=800"
      rating := some 4.4 },
    { title := "Canon EOS R10"
      description := some "Mirrorless camera with 24.2MP sensor"
      price := 999
      category := "Cameras"
      in_stock := true
      image := some "https://images.unsplash.com/photo-1519183071298-a2962be96f83?w=800"
      rating := some 4.5 } ]

/-- Inserting every sample product in order via `create_document`. -/
def seedInsert (w : World) : World :=
  sampleProducts.foldl (fun acc p => (create_document acc p).2) w

/-- The `POST /api/seed` handler: fail when the db handle is absent;
when the collection already holds a record (`count_documents({}) > 0`,
modelled as the store length) report the existing count without
inserting; otherwise insert the six samples and report the inserted
count and the new total. -/
def seed_products (w : World) : Except HErr SeedReply × World :=
  if w.dbUp then
    if w.store.length > 0 then
      (Except.ok (SeedReply.already w.store.length), w)
    else
      let w2 := seedInsert w
      (Except.ok (SeedReply.seeded sampleProducts.length w2.store.length), w2)
  else (Except.error (HErr.server "Database not configured"), w)

/-! ## Concrete fixtures used by counterexamples and witnesses -/

/-- A product whose title contains the word Phone. -/
def pA : Product :=
  { title := "Phone One", description := none, price := 1
    category := "CatA", in_stock := true, image := none, rating := none }

/-- A second product whose title contains the word phone. -/
def pB : Product :=
  { title := "phone two", description := none, price := 2
    category := "CatB", in_stock := true, image := none, rating := none }

/-- A configured world holding the two phone products. -/
def Wph : World := { dbUp := true, nextId := 2, store := [⟨0, pA⟩, ⟨1, pB⟩] }

/-- A configured world with an empty collection. -/
def Wempty : World := { dbUp := true, nextId := 0, store := [] }

/-- A world whose db handle is not configured. -/
def Wdown : World := { dbUp := false, nextId := 0, store := [] }

/-- A well-formed create payload. -/
def Rvalid : RawPayload :=
  { title := some (JVal.jstr "Apple iPhone 15"), description := none
    price := some (JVal.jnum 799), category := some (JVal.jstr "Mobiles")
    in_stock := none, image := none, rating := none }

/-- The product `Rvalid` validates to. -/
def Pvalid : Product :=
  { title := "Apple iPhone 15", description := none, price := 799
    category := "Mobiles", in_stock := true, image := none, rating := none }

/-- Claim C1, counterexample: with one stored matching product, the call
with limit 0 is rejected with a request-validation error, while the
claim requires it to use the clamped limit 1 and answer like the call
with limit 1, which succeeds and returns the item; the two calls
disagree, so no clamping takes place. -/
theorem c1_counterexample :
    list_products Wph none none (some 0) =
      Except.error (HErr.validation "limit out of range") ∧
    list_products Wph none none (some 1) =
      Except.ok [serialize { _id := 0, doc := pA }] ∧
    list_products Wph none none (some 0) ≠
      list_products Wph none none (some 1) :=
  ⟨rfl, rfl, fun h => Except.noConfusion h⟩

/-- Claim C1 (amended): the limit is not clamped: a `limit` outside
[1,200] is rejected with a request-validation error (HTTP 422) before
any query is run; an in-range limit is used as given; an absent limit
defaults to 48. -/
theorem c1_limit_validation (w : World) (s c : Option String) (v : Int) :
    (¬ (1 ≤ v ∧ v ≤ 200) →
      list_products w s c (some v) =
        Except.error (HErr.validation "limit out of range") ∧
      statusCode (HErr.validation "limit out of range") = 422) ∧
    (1 ≤ v ∧ v ≤ 200 → parseLimit (some v) = Except.ok v) ∧
    parseLimit none = Except.ok 48 := by
  refine ⟨fun h => ⟨?_, rfl⟩, fun h => ?_, rfl⟩
  · simp [list_products, parseLimit, h]
  · simp [parseLimit, h]

/-- Witness for C1: the call with limit 300 on the concrete world is
rejected with a 422 validation error. -/
theorem c1_witness :
    list_products Wph none none (some 300) =
      Except.error (HErr.validation "limit out of range") ∧
    statusCode (HErr.validation "limit out of range") = 422 :=
  (c1_limit_validation Wph none none 300).1 (by decide)

/-- Claim C5: when both a non-empty search string and a non-empty
category are supplied, every returned record is the serialization of a
stored record that matches the search on title or description AND whose
category equals the given category exactly. -/
theorem c5_filters_conjoin (w : World) (s c : String) (limit : Option Int)
    (items : List ProductOut) (hs : s ≠ "") (hc : c ≠ "")
    (h : list_products w (some s) (some c) limit = Except.ok items) :
    ∀ o ∈ items, ∃ sd, sd ∈ w.store ∧ matchesSearch s sd.doc = true ∧
      sd.doc.category = c ∧ o = serialize sd := by
  intro o ho
  unfold list_products at h
  rcases hl : parseLimit limit with e | lim
  · rw [hl] at h
    exact absurd h (by simp)
  · rw [hl] at h
    dsimp only at h
    by_cases hw : w.dbUp
    · rw [if_pos hw] at h
      injection h with h
      rw [← h] at ho
      rcases List.mem_map.mp ho with ⟨sd, hsd, rfl⟩
      have hsd2 := List.mem_of_mem_take hsd
      rcases List.mem_filter.mp hsd2 with ⟨hmem, hpred⟩
      refine ⟨sd, hmem, ?_, ?_, rfl⟩
      · simp [docMatches, hs, hc] at hpred
        exact hpred.1
      · simp [docMatches, hs, hc] at hpred
        exact hpred.2
    · rw [if_neg hw] at h
      exact absurd h (by simp)

/-- Witness for C5: applied to the concrete world, search "phone" and
category "CatA" with limit 5: the returned singleton satisfies both
filters. -/
theorem c5_witness :
    ∃ sd, sd ∈ Wph.store ∧ matchesSearch "phone" sd.doc = true ∧
      sd.doc.category = "CatA" ∧
      serialize { _id := 0, doc := pA } = serialize sd :=
  c5_filters_conjoin Wph "phone" "CatA" (some 5)
    [serialize { _id := 0, doc := pA }] (by decide) (by decide) rfl
    (serialize { _id := 0, doc := pA }) (by simp)

/-- Claim C10: supplying `search` or `category` as the empty string is
the same call as omitting the parameter: the empty string is falsy in
the source, so no filter clause is added. -/
theorem c10_empty_param_no_filter (w : World) (s c : Option String)
    (lim : Option Int) :
    list_products w (some "") c lim = list_products w none c lim ∧
    list_products w s (some "") lim = list_products w s none lim :=
  ⟨rfl, rfl⟩

/-- Claim C4, counterexample: the claim omits the `limit` cap.  With two
stored products both matching the search "phone" and a call with
limit 1, the second product matches the search case-insensitively on its
title yet is not among the returned items, refuting the plain
if-and-only-if. -/
theorem c4_counterexample :
    matchesSearch "phone" pB = true ∧
    (⟨1, pB⟩ : StoredProduct) ∈ Wph.store ∧
    list_products Wph (some "phone") none (some 1) =
      Except.ok [serialize ⟨0, pA⟩] ∧
    serialize ⟨1, pB⟩ ∉ [serialize ⟨0, pA⟩] :=
  ⟨rfl, by simp [Wph], rfl, by decide⟩

/-- Claim C4 (amended): for a non-empty search string, provided the
number of matching records does not exceed the effective limit, a stored
product is among the selected documents if and only if the search string
occurs case-insensitively in its title or its description; the endpoint
returns exactly those documents, serialized. -/
theorem c4_search_match_iff (w : World) (s : String) (sd : StoredProduct)
    (lim : Int) (hs : s ≠ "") (hup : w.dbUp = true)
    (h1 : 1 ≤ lim) (h2 : lim ≤ 200)
    (hlen : (w.store.filter
      (fun x => docMatches (some s) none x.doc)).length ≤ lim.toNat) :
    list_products w (some s) none (some lim) =
      Except.ok ((get_documents w.store (some s) none lim.toNat).map serialize) ∧
    (sd ∈ get_documents w.store (some s) none lim.toNat ↔
      sd ∈ w.store ∧ matchesSearch s sd.doc = true) := by
  constructor
  · simp [list_products, parseLimit, h1, h2, hup]
  · unfold get_documents
    rw [List.take_of_length_le hlen, List.mem_filter]
    simp [docMatches, hs]

/-- Witness for C4: on the concrete two-product world with the default
limit 48, the matching product with id 1 is selected, and the selection
is characterized by the case-insensitive substring test. -/
theorem c4_witness :
    (Wph.store.filter
      (fun x => docMatches (some "phone") none x.doc)).length ≤ (48 : Int).toNat ∧
    (list_products Wph (some "phone") none (some 48) =
      Except.ok ((get_documents Wph.store (some "phone") none
        (48 : Int).toNat).map serialize) ∧
    ((⟨1, pB⟩ : StoredProduct) ∈ get_documents Wph.store (some "phone") none
        (48 : Int).toNat ↔
      (⟨1, pB⟩ : StoredProduct) ∈ Wph.store ∧ matchesSearch "phone" pB = true)) :=
  ⟨by decide,
   c4_search_match_iff Wph "phone" ⟨1, pB⟩ 48 (by decide) rfl
     (by decide) (by decide) (by decide)⟩

/-- Claim C6: on a configured world, `get_categories` returns the
distinct non-empty category values of the stored products as a
lexicographically sorted sequence with no duplicates and no empty
strings. -/
theorem c6_categories (w : World) (hup : w.dbUp = true) :
    get_categories w = Except.ok (categoriesOf w) ∧
    List.Sorted (· ≤ ·) (categoriesOf w) ∧
    (categoriesOf w).Nodup ∧
    "" ∉ categoriesOf w ∧
    ∀ c, c ∈ categoriesOf w ↔
      (c ≠ "" ∧ ∃ sd, sd ∈ w.store ∧ sd.doc.category = c) := by
  have hbase : (((w.store.map (fun sd => sd.doc.category)).dedup).filter
      (fun c => c ≠ "")).Nodup :=
    (List.nodup_dedup _).filter _
  refine ⟨by simp [get_categories, hup], ?_, ?_, ?_, ?_⟩
  · simp only [categoriesOf]
    exact List.sorted_insertionSort _ _
  · simp only [categoriesOf]
    exact (List.perm_insertionSort _ _).symm.nodup hbase
  · simp only [categoriesOf]
    intro hmem
    rw [List.mem_insertionSort] at hmem
    rcases List.mem_filter.mp hmem with ⟨_, hne⟩
    simp at hne
  · intro c
    simp only [categoriesOf]
    rw [List.mem_insertionSort, List.mem_filter, List.mem_dedup, List.mem_map]
    constructor
    · rintro ⟨⟨sd, hsd, rfl⟩, hne⟩
      exact ⟨by simpa using hne, sd, hsd, rfl⟩
    · rintro ⟨hne, sd, hsd, rfl⟩
      exact ⟨⟨sd, hsd, rfl⟩, by simpa using hne⟩

/-- Witness for C6: the category contract instantiated on the concrete
two-product world. -/
theorem c6_witness :
    get_categories Wph = Except.ok (categoriesOf Wph) ∧
    List.Sorted (· ≤ ·) (categoriesOf Wph) ∧
    (categoriesOf Wph).Nodup ∧
    "" ∉ categoriesOf Wph ∧
    ∀ c, c ∈ categoriesOf Wph ↔
      (c ≠ "" ∧ ∃ sd, sd ∈ Wph.store ∧ sd.doc.category = c) :=
  c6_categories Wph rfl

/-- Claim C2, counterexample: the handler never surfaces a lookup
error.  When the re-fetch raises and the fallback lookup yields no
record, the return statement produces the normal reply with a null item
(first conjunct); and on a concrete run where the re-fetch raises, the
endpoint answers with a success, not an error (second conjunct). -/
theorem c2_counterexample :
    create_response (Except.error ()) none = { item := none } ∧
    (create_product Wempty true Rvalid).1 =
      Except.ok { item := some (serialize { _id := 0, doc := Pvalid }) } :=
  ⟨rfl, rfl⟩

/-- Claim C2 (amended): when the re-fetch by the assigned id raises, the
handler falls back to the most-recently-inserted lookup; and when a
lookup chain ends with no record at all, the handler still returns the
normal success reply with a null item instead of surfacing an error. -/
theorem c2_fallback_reply (w : World) (raw : RawPayload) (p : Product)
    (h : parsePayload raw = Except.ok p) (hup : w.dbUp = true) :
    (create_product w true raw).1 =
      Except.ok { item :=
        (lastInserted ((create_document w p).2).store).map serialize } ∧
    ∀ fb, create_response (Except.error ()) fb = { item := fb.map serialize } := by
  constructor
  · simp [create_product, h, hup, create_response]
  · intro fb
    rfl

/-- Witness for C2: the fallback reply on the concrete empty world and
valid payload. -/
theorem c2_witness :
    (create_product Wempty true Rvalid).1 =
      Except.ok { item :=
        (lastInserted ((create_document Wempty Pvalid).2).store).map serialize } ∧
    ∀ fb, create_response (Except.error ()) fb = { item := fb.map serialize } :=
  c2_fallback_reply Wempty Rvalid Pvalid rfl rfl

/-- Claim C3: seeding is idempotent: on a configured world whose
collection is non-empty it performs no insert, leaves the world
unchanged and reports the existing count; starting from an empty
collection, the first call inserts 6 records reporting count 6 and a
second call reports the unchanged count 6 and changes nothing. -/
theorem c3_seed_idempotent (w : World) (hup : w.dbUp = true) :
    (w.store ≠ [] →
      seed_products w = (Except.ok (SeedReply.already w.store.length), w)) ∧
    (w.store = [] →
      (seed_products w).1 = Except.ok (SeedReply.seeded 6 6) ∧
      ((seed_products w).2).store.length = 6 ∧
      seed_products ((seed_products w).2) =
        (Except.ok (SeedReply.already 6), (seed_products w).2)) := by
  constructor
  · intro hne
    have hlen : 0 < w.store.length := List.length_pos.mpr hne
    simp [seed_products, hup, hlen]
  · intro hemp
    obtain ⟨up, n, st⟩ := w
    simp only at hemp hup
    subst hemp
    subst hup
    refine ⟨?_, ?_, ?_⟩ <;>
      simp [seed_products, seedInsert, sampleProducts, create_document]

/-- Witness for C3: the two-call sequence starting from the concrete
empty world. -/
theorem c3_witness :
    (seed_products Wempty).1 = Except.ok (SeedReply.seeded 6 6) ∧
    ((seed_products Wempty).2).store.length = 6 ∧
    seed_products ((seed_products Wempty).2) =
      (Except.ok (SeedReply.already 6), (seed_products Wempty).2) :=
  (c3_seed_idempotent Wempty rfl).2 rfl

/-- Claim C8: when the db handle is not configured, each of the four
data operations fails with the 500 server error carrying the detail
message, before touching the store (the world is returned unchanged; the
two read operations take no state at all). -/
theorem c8_db_not_configured (w : World) (raw : RawPayload) (p : Product)
    (hdown : w.dbUp = false) (hraw : parsePayload raw = Except.ok p) :
    list_products w none none none =
      Except.error (HErr.server "Database not configured") ∧
    get_categories w = Except.error (HErr.server "Database not configured") ∧
    create_product w false raw =
      (Except.error (HErr.server "Database not configured"), w) ∧
    seed_products w = (Except.error (HErr.server "Database not configured"), w) ∧
    statusCode (HErr.server "Database not configured") = 500 := by
  refine ⟨?_, ?_, ?_, ?_, rfl⟩ <;>
    simp [list_products, parseLimit, get_categories, create_product,
      seed_products, hdown, hraw]

/-- Witness for C8: the four operations on the concrete unconfigured
world with a valid payload. -/
theorem c8_witness :
    list_products Wdown none none none =
      Except.error (HErr.server "Database not configured") ∧
    get_categories Wdown = Except.error (HErr.server "Database not configured") ∧
    create_product Wdown false Rvalid =
      (Except.error (HErr.server "Database not configured"), Wdown) ∧
    seed_products Wdown =
      (Except.error (HErr.server "Database not configured"), Wdown) ∧
    statusCode (HErr.server "Database not configured") = 500 :=
  c8_db_not_configured Wdown Rvalid Pvalid rfl rfl

/-- Claim C9: from a configured empty collection, seeding inserts
exactly the six fixed built-in sample records, whose distinct categories
are exactly Mobiles, Audio, Laptops, Fashion, Cameras, and reports the
inserted count 6 together with the new total 6. -/
theorem c9_seed_samples (w : World) (hup : w.dbUp = true)
    (hemp : w.store = []) :
    (seed_products w).1 = Except.ok (SeedReply.seeded 6 6) ∧
    ((seed_products w).2).store.map (fun sd => sd.doc) = sampleProducts ∧
    ((seed_products w).2).store.length = 6 ∧
    sampleProducts.length = 6 ∧
    (sampleProducts.map (fun p => p.category)).dedup =
      ["Mobiles", "Audio", "Laptops", "Fashion", "Cameras"] := by
  obtain ⟨up, n, st⟩ := w
  simp only at hemp hup
  subst hemp
  subst hup
  refine ⟨?_, ?_, ?_, ?_, by decide⟩ <;>
    simp [seed_products, seedInsert, sampleProducts, create_document]

/-- Witness for C9: seeding the concrete empty world. -/
theorem c9_witness :
    (seed_products Wempty).1 = Except.ok (SeedReply.seeded 6 6) ∧
    ((seed_products Wempty).2).store.map (fun sd => sd.doc) = sampleProducts ∧
    ((seed_products Wempty).2).store.length = 6 ∧
    sampleProducts.length = 6 ∧
    (sampleProducts.map (fun p => p.category)).dedup =
      ["Mobiles", "Audio", "Laptops", "Fashion", "Cameras"] :=
  c9_seed_samples Wempty rfl rfl
